import Mathlib

/-!
Verification of the Fault Scoring & Attribution Engine, History Store,
Sampling Loop controls and Remote/Local Dispatcher of the
turbine-insight-predict dashboard.

The engine (`mockPrediction` in src/services/api.ts) is embedded with exact
rational arithmetic in place of JavaScript numbers.  The four
`Math.random()` calls it performs are modelled by an injected `Noise`
record (one field per call site, each assumed to lie in [0,1) where a
theorem needs it), and the ambient clock (`new Date().toISOString()`) by an
injected `now : String`.  Only the telemetry fields the embedded code
actually reads are modelled; the remaining presentation-only fields of
`TurbineParameters` never influence any verified behaviour.
-/

namespace TurbineInsight

/-- The three classification labels of `PredictionResponse.prediction`. -/
inductive Label where
  | normal
  | warning
  | fault
deriving DecidableEq, Repr

/-- The telemetry fields of `TurbineParameters` read by the scoring engine
and the history export (src/components/ParameterControls.tsx declares more
fields, but they are presentation-only). -/
structure TurbineParameters where
  windSpeed : ℚ
  generatorPower : ℚ
  frequency : ℚ
  powerFactor : ℚ
  vibrationLevels : ℚ
  componentTemperatures : ℚ
  gearboxOilCondition : ℚ
deriving DecidableEq, Repr

/-- One value per `Math.random()` call site inside `mockPrediction`,
in source order: the `shapValues.generatorPower` noise, the
`shapValues.frequency` noise, the probability noise and the confidence
noise. -/
structure Noise where
  nGeneratorPower : ℚ
  nFrequency : ℚ
  nProbability : ℚ
  nConfidence : ℚ
deriving DecidableEq, Repr

/-- The mock SHAP attribution object built by `mockPrediction`
(src/services/api.ts lines 63-71). -/
structure ShapValues where
  vibrationLevels : ℚ
  componentTemperatures : ℚ
  windSpeed : ℚ
  powerFactor : ℚ
  gearboxOilCondition : ℚ
  generatorPower : ℚ
  frequency : ℚ
deriving DecidableEq, Repr

/-- `PredictionResponse` (src/services/api.ts lines 6-13). -/
structure PredictionResponse where
  prediction : Label
  probability : ℚ
  confidence : ℚ
  affectedComponents : List String
  shapValues : ShapValues
  timestamp : String
deriving DecidableEq, Repr

def gearboxName : String := "Gearbox"

def bearingsName : String := "Bearings"

def generatorName : String := "Generator"

def powerElectronicsName : String := "Power Electronics"

def rotorName : String := "Rotor"

def controlSystemName : String := "Control System"

/-- The accumulated `faultScore` of `mockPrediction`
(src/services/api.ts lines 23-50): each threshold rule adds its fixed
weight. -/
def faultScore (p : TurbineParameters) : ℚ :=
  (if p.vibrationLevels > 70 then 3/10 else 0)
    + (if p.componentTemperatures > 90 then 1/4 else 0)
    + (if p.windSpeed > 25 ∨ p.windSpeed < 3 then 1/5 else 0)
    + (if p.powerFactor < 17/20 then 3/20 else 0)
    + (if p.gearboxOilCondition < 30 then 1/10 else 0)

/-- The `affectedComponents` array as pushed by the five rules, before the
`new Set` deduplication (src/services/api.ts lines 24-50). -/
def affectedComponentsRaw (p : TurbineParameters) : List String :=
  (if p.vibrationLevels > 70 then [gearboxName, bearingsName] else [])
    ++ (if p.componentTemperatures > 90 then [generatorName, powerElectronicsName] else [])
    ++ (if p.windSpeed > 25 ∨ p.windSpeed < 3 then [rotorName, controlSystemName] else [])
    ++ (if p.powerFactor < 17/20 then [powerElectronicsName] else [])
    ++ (if p.gearboxOilCondition < 30 then [gearboxName] else [])

/-- First-occurrence deduplication with an accumulator of already-seen
elements: the behaviour of `[...new Set(arr)]` in JavaScript. -/
def dedupFirstAux (seen : List String) : List String → List String
  | [] => []
  | a :: t => if a ∈ seen then dedupFirstAux seen t else a :: dedupFirstAux (a :: seen) t

/-- `[...new Set(arr)]`: keep the first occurrence of each element,
preserving order (src/services/api.ts line 77). -/
def jsSetDedup (l : List String) : List String := dedupFirstAux [] l

/-- The label chosen from the accumulated fault score
(src/services/api.ts lines 52-60). -/
def classify (faultScore : ℚ) : Label :=
  if faultScore > 3/5 then .fault
  else if faultScore > 3/10 then .warning
  else .normal

/-- The mock SHAP values (src/services/api.ts lines 63-71): a fixed
positive value when the corresponding rule fired, a fixed negative value
otherwise; `generatorPower` and `frequency` get pure noise. -/
def mockShapValues (p : TurbineParameters) (r : Noise) : ShapValues where
  vibrationLevels := if p.vibrationLevels > 70 then 3/20 else -(1/20)
  componentTemperatures := if p.componentTemperatures > 90 then 3/25 else -(3/100)
  windSpeed := if p.windSpeed > 25 ∨ p.windSpeed < 3 then 1/10 else -(1/50)
  powerFactor := if p.powerFactor < 17/20 then 2/25 else -(1/100)
  gearboxOilCondition := if p.gearboxOilCondition < 30 then 3/50 else -(1/100)
  generatorPower := r.nGeneratorPower * (1/25) - 1/50
  frequency := r.nFrequency * (1/50) - 1/100

/-- `mockPrediction` (src/services/api.ts lines 21-81) with the ambient
clock and the `Math.random()` stream passed explicitly. -/
def mockPrediction (p : TurbineParameters) (now : String) (r : Noise) : PredictionResponse where
  prediction := classify (faultScore p)
  probability := min (faultScore p + r.nProbability * (1/10)) 1
  confidence := 17/20 + r.nConfidence * (1/10)
  affectedComponents := jsSetDedup (affectedComponentsRaw p)
  shapValues := mockShapValues p r
  timestamp := now

/-- A fixed nominal timestamp string used in concrete instances. -/
def tsNominal : String := "2024-01-01T00:00:00.000Z"

/-- A fixed concrete noise sample, all four draws equal to 1/2. -/
def noiseHalf : Noise where
  nGeneratorPower := 1/2
  nFrequency := 1/2
  nProbability := 1/2
  nConfidence := 1/2

/-! ## JavaScript semantics for possibly-missing fields

`mockPrediction` performs no validation, so its behaviour on records with
missing (`undefined`) or `NaN` fields is given by JavaScript comparison
semantics: any `<`/`>` comparison involving `undefined` or `NaN` is false.
`TurbineParametersJS` models such records with `Option ℚ` fields
(`none` = missing or `NaN`). -/

/-- A telemetry record in which any field may be missing or `NaN`. -/
structure TurbineParametersJS where
  windSpeed : Option ℚ
  generatorPower : Option ℚ
  frequency : Option ℚ
  powerFactor : Option ℚ
  vibrationLevels : Option ℚ
  componentTemperatures : Option ℚ
  gearboxOilCondition : Option ℚ
deriving DecidableEq, Repr

/-- JavaScript `x > c` where `x` may be `undefined`/`NaN`: false then. -/
def jsGt (x : Option ℚ) (c : ℚ) : Bool :=
  match x with
  | some v => decide (c < v)
  | none => false

/-- JavaScript `x < c` where `x` may be `undefined`/`NaN`: false then. -/
def jsLt (x : Option ℚ) (c : ℚ) : Bool :=
  match x with
  | some v => decide (v < c)
  | none => false

/-- `faultScore` accumulation of `mockPrediction` run under JavaScript
comparison semantics on a possibly-incomplete record. -/
def faultScoreJS (p : TurbineParametersJS) : ℚ :=
  (if jsGt p.vibrationLevels 70 then 3/10 else 0)
    + (if jsGt p.componentTemperatures 90 then 1/4 else 0)
    + (if jsGt p.windSpeed 25 || jsLt p.windSpeed 3 then 1/5 else 0)
    + (if jsLt p.powerFactor (17/20) then 3/20 else 0)
    + (if jsLt p.gearboxOilCondition 30 then 1/10 else 0)

/-- `affectedComponents` pushes of `mockPrediction` under JavaScript
comparison semantics on a possibly-incomplete record. -/
def affectedComponentsRawJS (p : TurbineParametersJS) : List String :=
  (if jsGt p.vibrationLevels 70 then [gearboxName, bearingsName] else [])
    ++ (if jsGt p.componentTemperatures 90 then [generatorName, powerElectronicsName] else [])
    ++ (if jsGt p.windSpeed 25 || jsLt p.windSpeed 3 then [rotorName, controlSystemName] else [])
    ++ (if jsLt p.powerFactor (17/20) then [powerElectronicsName] else [])
    ++ (if jsLt p.gearboxOilCondition 30 then [gearboxName] else [])

/-- Mock SHAP values under JavaScript comparison semantics. -/
def mockShapValuesJS (p : TurbineParametersJS) (r : Noise) : ShapValues where
  vibrationLevels := if jsGt p.vibrationLevels 70 then 3/20 else -(1/20)
  componentTemperatures := if jsGt p.componentTemperatures 90 then 3/25 else -(3/100)
  windSpeed := if jsGt p.windSpeed 25 || jsLt p.windSpeed 3 then 1/10 else -(1/50)
  powerFactor := if jsLt p.powerFactor (17/20) then 2/25 else -(1/100)
  gearboxOilCondition := if jsLt p.gearboxOilCondition 30 then 3/50 else -(1/100)
  generatorPower := r.nGeneratorPower * (1/25) - 1/50
  frequency := r.nFrequency * (1/50) - 1/100

/-- `mockPrediction` run on a record with possibly-missing fields: the
function body has no validation and no error path, so it always returns a
`PredictionResponse`, every comparison involving a missing field
evaluating to false. -/
def mockPredictionJS (p : TurbineParametersJS) (now : String) (r : Noise) : PredictionResponse where
  prediction := classify (faultScoreJS p)
  probability := min (faultScoreJS p + r.nProbability * (1/10)) 1
  confidence := 17/20 + r.nConfidence * (1/10)
  affectedComponents := jsSetDedup (affectedComponentsRawJS p)
  shapValues := mockShapValuesJS p r
  timestamp := now

/-- The embedding of a complete record into the possibly-missing one. -/
def toJS (p : TurbineParameters) : TurbineParametersJS where
  windSpeed := some p.windSpeed
  generatorPower := some p.generatorPower
  frequency := some p.frequency
  powerFactor := some p.powerFactor
  vibrationLevels := some p.vibrationLevels
  componentTemperatures := some p.componentTemperatures
  gearboxOilCondition := some p.gearboxOilCondition

/-! ## Remote/Local Dispatcher -/

/-- The ways the remote `axios.post` can fail; `turbineApi.predict`
catches all of them alike. -/
inductive RemoteError where
  | timeout
  | connectionFailure
  | badStatus (code : ℕ)
deriving DecidableEq, Repr

/-- `turbineApi.predict` (src/services/api.ts lines 85-100) with the
remote call's outcome passed explicitly.  The first component is the
artificial delay taken before resolving (0 on the remote path, the
1500 ms `setTimeout` on the fallback path); the second is the resolved
`PredictionResponse`.  The function is total: every path resolves. -/
def predict (remote : Except RemoteError PredictionResponse)
    (p : TurbineParameters) (now : String) (r : Noise) : ℕ × PredictionResponse :=
  match remote with
  | .ok resp => (0, resp)
  | .error _ => (1500, mockPrediction p now r)

/-! ## History Store -/

/-- One `PredictionHistory` entry
(src/components/RealTimeDashboard.tsx lines 16-23). -/
structure PredictionHistory where
  id : String
  timestamp : String
  prediction : Label
  probability : ℚ
  confidence : ℚ
  parameters : TurbineParameters
deriving DecidableEq, Repr

/-- The history update of `runPrediction`
(src/components/RealTimeDashboard.tsx line 72):
`prev => [historyEntry, ...prev.slice(0, 49)]`. -/
def historyAppend {α : Type} (entry : α) (prev : List α) : List α :=
  entry :: prev.take 49

/-- Appending a sequence of entries in order to an initially empty
history. -/
def historyAppendAll {α : Type} (entries : List α) : List α :=
  entries.foldl (fun acc e => historyAppend e acc) []

/-! ## History export -/

/-- `Number.prototype.toFixed d` on an exact rational: the sign is taken
off, `|q| * 10^d` is rounded to the integer `n` minimising the error with
ties going to the larger `n`, and the digits are rendered with `d`
zero-padded fractional places. -/
def toFixed (d : ℕ) (q : ℚ) : String :=
  let sign : String := if q < 0 then "-" else ""
  let n : ℕ := (⌊|q| * (10 : ℚ) ^ d + 1/2⌋).toNat
  let ip : ℕ := n / 10 ^ d
  let fp : ℕ := n % 10 ^ d
  let fpStr : String := toString fp
  let pad : String := String.mk (List.replicate (d - fpStr.length) ('0'))
  if d = 0 then sign ++ toString ip
  else sign ++ toString ip ++ "." ++ pad ++ fpStr

/-- The header row of `exportHistory`
(src/components/RealTimeDashboard.tsx line 112). -/
def headerCells : List String :=
  ["Timestamp", "Prediction", "Probability", "Confidence", "Wind Speed",
    "Generator Power", "Vibration", "Temperature"]

/-- The string form of a label, as stored in the CSV. -/
def labelText : Label → String
  | .normal => "normal"
  | .warning => "warning"
  | .fault => "fault"

/-- The data row built for one history entry
(src/components/RealTimeDashboard.tsx lines 113-122). -/
def entryCells (e : PredictionHistory) : List String :=
  [e.timestamp, labelText e.prediction, toFixed 3 e.probability,
    toFixed 3 e.confidence, toFixed 1 e.parameters.windSpeed,
    toFixed 1 e.parameters.generatorPower,
    toFixed 1 e.parameters.vibrationLevels,
    toFixed 1 e.parameters.componentTemperatures]

/-- The array of rows of `exportHistory` before joining: the header row
followed by one row per stored entry, in stored order. -/
def exportTable (history : List PredictionHistory) : List (List String) :=
  headerCells :: history.map entryCells

def commaStr : String := ","

def newlineStr : String := "\x0A"

/-- `exportHistory` (src/components/RealTimeDashboard.tsx lines 110-123):
`.map(row => row.join(',')).join('\x0A')` over the table. -/
def exportHistory (history : List PredictionHistory) : String :=
  String.intercalate newlineStr ((exportTable history).map (String.intercalate commaStr))

/-! ## Sampling Loop state -/

/-- The loop-relevant component state: the `isRealTimeMode` flag, the
stored `intervalId`, and the set (as a list, most recent first) of
interval timers actually live in the browser.  Timer handles are natural
numbers. -/
structure LoopState where
  isRealTimeMode : Bool
  intervalId : Option ℕ
  active : List ℕ
deriving DecidableEq, Repr

/-- `startRealTimeMode` (src/components/RealTimeDashboard.tsx lines
78-87): unconditionally sets the flag, creates a fresh interval
(`setInterval`), stores its id — without checking whether one is already
running. -/
def startRealTimeMode (fresh : ℕ) (s : LoopState) : LoopState where
  isRealTimeMode := true
  intervalId := some fresh
  active := fresh :: s.active

/-- `stopRealTimeMode` (src/components/RealTimeDashboard.tsx lines
89-100): clears the flag; if an interval id is stored, cancels that timer
and nulls the id. -/
def stopRealTimeMode (s : LoopState) : LoopState :=
  match s.intervalId with
  | some id =>
      { isRealTimeMode := false, intervalId := none, active := s.active.erase id }
  | none => { s with isRealTimeMode := false }

/-- The Idle state: flag down, no stored interval, no live timer. -/
def idleState : LoopState where
  isRealTimeMode := false
  intervalId := none
  active := []

/-! ## Concrete records used in instances -/

/-- The end-to-end scenario record of the spec: vibrationLevels 75,
componentTemperatures 85, windSpeed 15, powerFactor 0.88, every other
field nominal, with the gearbox oil condition left as a parameter. -/
def recScenario1 (oil : ℚ) : TurbineParameters where
  windSpeed := 15
  generatorPower := 2000
  frequency := 60
  powerFactor := 22/25
  vibrationLevels := 75
  componentTemperatures := 85
  gearboxOilCondition := oil

/-- A record whose fault score is exactly 0.6: the vibration (0.3), wind
(0.2) and oil (0.1) rules fire. -/
def recScore06 : TurbineParameters where
  windSpeed := 30
  generatorPower := 2000
  frequency := 60
  powerFactor := 9/10
  vibrationLevels := 75
  componentTemperatures := 85
  gearboxOilCondition := 10

/-- A record whose fault score is exactly 0.3: the wind (0.2) and oil
(0.1) rules fire. -/
def recScore03 : TurbineParameters where
  windSpeed := 30
  generatorPower := 2000
  frequency := 60
  powerFactor := 9/10
  vibrationLevels := 40
  componentTemperatures := 85
  gearboxOilCondition := 10

/-- A record with the required field `vibrationLevels` missing and an
over-temperature condition present. -/
def recMissingVibration : TurbineParametersJS where
  windSpeed := some 15
  generatorPower := some 2000
  frequency := some 60
  powerFactor := some (19/20)
  vibrationLevels := none
  componentTemperatures := some 95
  gearboxOilCondition := some 85

/-- A concrete history entry with known field values. -/
def entryNominal : PredictionHistory where
  id := "1700000000000"
  timestamp := tsNominal
  prediction := Label.warning
  probability := 91/200
  confidence := 91/100
  parameters := recScenario1 85

/-! ## Helper lemmas -/

/-- The accumulated fault score never exceeds 1: the five rule weights sum
to exactly 0.3 + 0.25 + 0.2 + 0.15 + 0.1 = 1. -/
lemma faultScore_le_one (p : TurbineParameters) : faultScore p ≤ 1 := by
  unfold faultScore
  split_ifs <;> norm_num

/-- Folding `historyAppend` over any entry sequence from the empty store
yields the 50 most recently appended entries, newest first. -/
lemma historyAppendAll_eq {α : Type} (es : List α) :
    historyAppendAll es = es.reverse.take 50 := by
  induction es using List.reverseRecOn with
  | nil => rfl
  | append_singleton l a ih =>
      simp only [historyAppendAll, List.foldl_append, List.foldl_cons, List.foldl_nil]
      simp only [historyAppendAll] at ih
      rw [ih]
      simp [historyAppend, List.take_take, List.reverse_append]

/-! ## Claim theorems -/

/-- C1 counterexample: on the spec's end-to-end scenario record
(vibrationLevels 75, componentTemperatures 85, windSpeed 15,
powerFactor 0.88, gearboxOilCondition 85), the engine returns fault score
0.30 — not 0.45 — label `normal` — not `warning` — and affected
components [Gearbox, Bearings] — not [Gearbox, Bearings, Power
Electronics]: 0.88 is not below the 0.85 power-factor threshold, so that
rule does not fire. -/
theorem scenario1_claim_false :
    faultScore (recScenario1 85) = 3/10 ∧ faultScore (recScenario1 85) ≠ 9/20 ∧
    (mockPrediction (recScenario1 85) tsNominal noiseHalf).prediction = Label.normal ∧
    (mockPrediction (recScenario1 85) tsNominal noiseHalf).prediction ≠ Label.warning ∧
    (mockPrediction (recScenario1 85) tsNominal noiseHalf).affectedComponents
      = [gearboxName, bearingsName] ∧
    (mockPrediction (recScenario1 85) tsNominal noiseHalf).affectedComponents
      ≠ [gearboxName, bearingsName, powerElectronicsName] := by
  refine ⟨?_, ?_, ?_, ?_, ?_, ?_⟩
  · norm_num [faultScore, recScenario1]
  · norm_num [faultScore, recScenario1]
  · norm_num [mockPrediction, classify, faultScore, recScenario1]
  · norm_num [mockPrediction, classify, faultScore, recScenario1]
    decide
  · norm_num [mockPrediction, affectedComponentsRaw, jsSetDedup, dedupFirstAux, recScenario1]
    decide
  · norm_num [mockPrediction, affectedComponentsRaw, jsSetDedup, dedupFirstAux, recScenario1]
    decide

/-- C1 (amended): for the record with vibrationLevels 75,
componentTemperatures 85, windSpeed 15, powerFactor 0.88 and all other
fields nominal (gearboxOilCondition at least 30), only the vibration rule
fires: the engine returns fault score 0.30, label `normal`, and affected
components exactly [Gearbox, Bearings], for every injected noise. -/
theorem scenario1_score (oil : ℚ) (now : String) (r : Noise) (h : 30 ≤ oil) :
    faultScore (recScenario1 oil) = 3/10 ∧
    (mockPrediction (recScenario1 oil) now r).prediction = Label.normal ∧
    (mockPrediction (recScenario1 oil) now r).affectedComponents
      = [gearboxName, bearingsName] := by
  have hoil : ¬ (oil < 30) := not_lt.mpr h
  refine ⟨?_, ?_, ?_⟩
  · norm_num [faultScore, recScenario1, hoil]
  · norm_num [mockPrediction, classify, faultScore, recScenario1, hoil]
  · norm_num [mockPrediction, affectedComponentsRaw, jsSetDedup, dedupFirstAux, recScenario1, hoil]
    decide

/-- C1 witness: the amended scenario theorem instantiated at
gearboxOilCondition 85 and a concrete noise sample. -/
theorem scenario1_score_witness :
    (30 : ℚ) ≤ 85 ∧
    (faultScore (recScenario1 85) = 3/10 ∧
      (mockPrediction (recScenario1 85) tsNominal noiseHalf).prediction = Label.normal ∧
      (mockPrediction (recScenario1 85) tsNominal noiseHalf).affectedComponents
        = [gearboxName, bearingsName]) :=
  ⟨by norm_num, scenario1_score 85 tsNominal noiseHalf (by norm_num)⟩

/-- C2 counterexample: the record with `vibrationLevels` missing (and an
over-temperature present) is not rejected: `mockPrediction` has no
validation and no error path, so the call returns an ordinary verdict
(label `normal`, probability 0.3, components [Generator, Power
Electronics]) instead of failing with an `InvalidRecord` error. -/
theorem missing_field_returns_verdict :
    (mockPredictionJS recMissingVibration tsNominal noiseHalf).prediction = Label.normal ∧
    (mockPredictionJS recMissingVibration tsNominal noiseHalf).probability = 3/10 ∧
    (mockPredictionJS recMissingVibration tsNominal noiseHalf).confidence = 9/10 ∧
    (mockPredictionJS recMissingVibration tsNominal noiseHalf).affectedComponents
      = [generatorName, powerElectronicsName] ∧
    faultScoreJS recMissingVibration = 1/4 := by
  refine ⟨?_, ?_, ?_, ?_, ?_⟩
  · norm_num [mockPredictionJS, classify, faultScoreJS, jsGt, jsLt, recMissingVibration, noiseHalf]
  · norm_num [mockPredictionJS, faultScoreJS, jsGt, jsLt, recMissingVibration, noiseHalf]
  · norm_num [mockPredictionJS, noiseHalf]
  · norm_num [mockPredictionJS, affectedComponentsRawJS, jsSetDedup, dedupFirstAux, jsGt, jsLt,
      recMissingVibration]
    decide
  · norm_num [faultScoreJS, jsGt, jsLt, recMissingVibration]

/-- C2 (amended): the Scoring Engine performs no validation at all: a
record whose `vibrationLevels` field is missing is scored to exactly the
same verdict as the same record with `vibrationLevels` silently defaulted
to a nominal 0 — every comparison involving the missing value is false,
and a full verdict is returned rather than an `InvalidRecord` error. -/
theorem missing_field_scored_as_default (p : TurbineParametersJS) (now : String) (r : Noise)
    (h : p.vibrationLevels = none) :
    mockPredictionJS p now r
      = mockPredictionJS { p with vibrationLevels := some 0 } now r := by
  have h70 : jsGt (p.vibrationLevels) 70 = jsGt (some 0) 70 := by
    rw [h]
    norm_num [jsGt]
  simp only [mockPredictionJS, faultScoreJS, affectedComponentsRawJS, mockShapValuesJS]
  simp [h70]

/-- C2 witness: the amended theorem instantiated at the concrete record
with missing `vibrationLevels`. -/
theorem missing_field_scored_as_default_witness :
    recMissingVibration.vibrationLevels = none ∧
    mockPredictionJS recMissingVibration tsNominal noiseHalf
      = mockPredictionJS { recMissingVibration with vibrationLevels := some 0 }
          tsNominal noiseHalf :=
  ⟨rfl, missing_field_scored_as_default recMissingVibration tsNominal noiseHalf rfl⟩

/-- C3: for every telemetry record and every non-negative injected
probability noise, the returned probability lies between the
deterministic rule-sum fault score and 1. -/
theorem probability_bounds (p : TurbineParameters) (now : String) (r : Noise)
    (h : 0 ≤ r.nProbability) :
    faultScore p ≤ (mockPrediction p now r).probability ∧
      (mockPrediction p now r).probability ≤ 1 := by
  constructor
  · exact le_min (by nlinarith) (faultScore_le_one p)
  · exact min_le_right _ _

/-- C3 witness: the probability bounds at a concrete record and noise. -/
theorem probability_bounds_witness :
    (0 : ℚ) ≤ noiseHalf.nProbability ∧
      (faultScore recScore03 ≤ (mockPrediction recScore03 tsNominal noiseHalf).probability ∧
        (mockPrediction recScore03 tsNominal noiseHalf).probability ≤ 1) :=
  ⟨by norm_num [noiseHalf],
    probability_bounds recScore03 tsNominal noiseHalf (by norm_num [noiseHalf])⟩

/-- C4: the label is `fault` exactly when the fault score exceeds 0.6,
`warning` exactly when it exceeds 0.3 but not 0.6, and `normal` exactly
when it is at most 0.3; a record scoring exactly 0.6 is classified
`warning`, one scoring exactly 0.3 is classified `normal`, and the
classifier sends the value 0.61 to `fault`. -/
theorem label_thresholds :
    (∀ (p : TurbineParameters) (now : String) (r : Noise),
      ((mockPrediction p now r).prediction = Label.fault ↔ 3/5 < faultScore p) ∧
      ((mockPrediction p now r).prediction = Label.warning ↔
        (3/10 < faultScore p ∧ faultScore p ≤ 3/5)) ∧
      ((mockPrediction p now r).prediction = Label.normal ↔ faultScore p ≤ 3/10)) ∧
    faultScore recScore06 = 3/5 ∧
    (mockPrediction recScore06 tsNominal noiseHalf).prediction = Label.warning ∧
    faultScore recScore03 = 3/10 ∧
    (mockPrediction recScore03 tsNominal noiseHalf).prediction = Label.normal ∧
    classify (61/100) = Label.fault := by
  refine ⟨fun p now r => ?_, ?_, ?_, ?_, ?_, ?_⟩
  · simp only [mockPrediction, classify]
    split_ifs with h1 h2
    · exact ⟨iff_of_true rfl h1,
        iff_of_false (by decide) (fun hc => absurd h1 (not_lt.mpr hc.2)),
        iff_of_false (by decide) (not_le.mpr (by linarith))⟩
    · exact ⟨iff_of_false (by decide) h1,
        iff_of_true rfl ⟨h2, not_lt.mp h1⟩,
        iff_of_false (by decide) (not_le.mpr h2)⟩
    · exact ⟨iff_of_false (by decide) h1,
        iff_of_false (by decide) (fun hc => h2 hc.1),
        iff_of_true rfl (not_lt.mp h2)⟩
  · norm_num [faultScore, recScore06]
  · norm_num [mockPrediction, classify, faultScore, recScore06]
  · norm_num [faultScore, recScore03]
  · norm_num [mockPrediction, classify, faultScore, recScore03]
  · norm_num [classify]

/-- C5: when the remote call fails — for any of the three failure kinds —
`predict` still resolves, after the 1500 ms artificial delay, with
exactly the verdict the local engine produces from the same record, the
same clock and the same injected randomness. -/
theorem predict_fallback (err : RemoteError) (p : TurbineParameters)
    (now : String) (r : Noise) :
    predict (Except.error err) p now r = (1500, mockPrediction p now r) := rfl

/-- C6: appending any 60 entries to an empty history store leaves exactly
50 entries, and those are precisely the 50 most recently appended ones
(the oldest 10 having been evicted), stored newest first. -/
theorem history_capacity {α : Type} (es : List α) (h : es.length = 60) :
    (historyAppendAll es).length = 50 ∧
      historyAppendAll es = (es.drop 10).reverse := by
  rw [historyAppendAll_eq]
  constructor
  · simp [h]
  · rw [List.reverse_drop, h]

/-- C6 witness: the capacity bound at the concrete sequence of entries
0, 1, ..., 59. -/
theorem history_capacity_witness :
    (List.range 60).length = 60 ∧
      ((historyAppendAll (List.range 60)).length = 50 ∧
        historyAppendAll (List.range 60) = ((List.range 60).drop 10).reverse) :=
  ⟨by simp, history_capacity (List.range 60) (by simp)⟩

/-- C7: the export of an empty store is exactly the header row with the
fixed column order, and the export of a store holding the known entry
`entryNominal` is the header followed by that entry's data row, with
probability and confidence rendered to 3 decimal places and the numeric
telemetry columns to 1. -/
theorem export_format :
    exportHistory []
      = "Timestamp,Prediction,Probability,Confidence,Wind Speed,Generator Power,Vibration,Temperature" ∧
    exportHistory [entryNominal]
      = "Timestamp,Prediction,Probability,Confidence,Wind Speed,Generator Power,Vibration,Temperature\x0A2024-01-01T00:00:00.000Z,warning,0.455,0.910,15.0,2000.0,75.0,85.0" := by
  constructor
  · rfl
  · have ha : toFixed 3 (91/200 : ℚ) = "0.455" := by
      have hf : (⌊|(91/200 : ℚ)| * 1000 + 1/2⌋ : ℤ) = 455 := by
        rw [Int.floor_eq_iff]
        norm_num [abs_of_nonneg]
      norm_num [toFixed]
      rw [hf]
      decide
    have hb : toFixed 3 (91/100 : ℚ) = "0.910" := by
      have hf : (⌊|(91/100 : ℚ)| * 1000 + 1/2⌋ : ℤ) = 910 := by
        rw [Int.floor_eq_iff]
        norm_num [abs_of_nonneg]
      norm_num [toFixed]
      rw [hf]
      decide
    have hc : toFixed 1 (15 : ℚ) = "15.0" := by
      norm_num [toFixed]
      decide
    have hd : toFixed 1 (2000 : ℚ) = "2000.0" := by
      norm_num [toFixed]
      decide
    have he : toFixed 1 (75 : ℚ) = "75.0" := by
      norm_num [toFixed]
      decide
    have hg : toFixed 1 (85 : ℚ) = "85.0" := by
      norm_num [toFixed]
      decide
    simp only [exportHistory, exportTable, entryCells, entryNominal, recScenario1, labelText,
      List.map_cons, List.map_nil]
    rw [ha, hb, hc, hd, he, hg]
    decide

/-- C8: in the attribution map, each of the five rule parameters carries
a strictly positive contribution exactly when its rule fired and a
strictly negative one exactly when it did not, and the `generatorPower`
and `frequency` entries are pure noise lying in [-0.02, 0.02] whenever
the injected random draws lie in [0, 1). -/
theorem shap_signs (p : TurbineParameters) (now : String) (r : Noise)
    (hg0 : 0 ≤ r.nGeneratorPower) (hg1 : r.nGeneratorPower < 1)
    (hf0 : 0 ≤ r.nFrequency) (hf1 : r.nFrequency < 1) :
    (0 < (mockPrediction p now r).shapValues.vibrationLevels ↔ 70 < p.vibrationLevels) ∧
    ((mockPrediction p now r).shapValues.vibrationLevels < 0 ↔ ¬ 70 < p.vibrationLevels) ∧
    (0 < (mockPrediction p now r).shapValues.componentTemperatures ↔ 90 < p.componentTemperatures) ∧
    ((mockPrediction p now r).shapValues.componentTemperatures < 0 ↔ ¬ 90 < p.componentTemperatures) ∧
    (0 < (mockPrediction p now r).shapValues.windSpeed ↔ (25 < p.windSpeed ∨ p.windSpeed < 3)) ∧
    ((mockPrediction p now r).shapValues.windSpeed < 0 ↔ ¬ (25 < p.windSpeed ∨ p.windSpeed < 3)) ∧
    (0 < (mockPrediction p now r).shapValues.powerFactor ↔ p.powerFactor < 17/20) ∧
    ((mockPrediction p now r).shapValues.powerFactor < 0 ↔ ¬ p.powerFactor < 17/20) ∧
    (0 < (mockPrediction p now r).shapValues.gearboxOilCondition ↔ p.gearboxOilCondition < 30) ∧
    ((mockPrediction p now r).shapValues.gearboxOilCondition < 0 ↔ ¬ p.gearboxOilCondition < 30) ∧
    -(1/50) ≤ (mockPrediction p now r).shapValues.generatorPower ∧
    (mockPrediction p now r).shapValues.generatorPower ≤ 1/50 ∧
    -(1/50) ≤ (mockPrediction p now r).shapValues.frequency ∧
    (mockPrediction p now r).shapValues.frequency ≤ 1/50 := by
  simp only [mockPrediction, mockShapValues]
  refine ⟨?_, ?_, ?_, ?_, ?_, ?_, ?_, ?_, ?_, ?_,
    by linarith, by linarith, by linarith, by linarith⟩
    <;> split_ifs with h <;> simp [h] <;> norm_num

/-- C8 witness: the attribution signs and noise bounds at a concrete
record and a concrete noise sample. -/
theorem shap_signs_witness :
    ((0:ℚ) ≤ noiseHalf.nGeneratorPower ∧ noiseHalf.nGeneratorPower < 1 ∧
      (0:ℚ) ≤ noiseHalf.nFrequency ∧ noiseHalf.nFrequency < 1) ∧
    ((0 < (mockPrediction recScore06 tsNominal noiseHalf).shapValues.vibrationLevels ↔
        70 < recScore06.vibrationLevels) ∧
      ((mockPrediction recScore06 tsNominal noiseHalf).shapValues.vibrationLevels < 0 ↔
        ¬ 70 < recScore06.vibrationLevels) ∧
      (0 < (mockPrediction recScore06 tsNominal noiseHalf).shapValues.componentTemperatures ↔
        90 < recScore06.componentTemperatures) ∧
      ((mockPrediction recScore06 tsNominal noiseHalf).shapValues.componentTemperatures < 0 ↔
        ¬ 90 < recScore06.componentTemperatures) ∧
      (0 < (mockPrediction recScore06 tsNominal noiseHalf).shapValues.windSpeed ↔
        (25 < recScore06.windSpeed ∨ recScore06.windSpeed < 3)) ∧
      ((mockPrediction recScore06 tsNominal noiseHalf).shapValues.windSpeed < 0 ↔
        ¬ (25 < recScore06.windSpeed ∨ recScore06.windSpeed < 3)) ∧
      (0 < (mockPrediction recScore06 tsNominal noiseHalf).shapValues.powerFactor ↔
        recScore06.powerFactor < 17/20) ∧
      ((mockPrediction recScore06 tsNominal noiseHalf).shapValues.powerFactor < 0 ↔
        ¬ recScore06.powerFactor < 17/20) ∧
      (0 < (mockPrediction recScore06 tsNominal noiseHalf).shapValues.gearboxOilCondition ↔
        recScore06.gearboxOilCondition < 30) ∧
      ((mockPrediction recScore06 tsNominal noiseHalf).shapValues.gearboxOilCondition < 0 ↔
        ¬ recScore06.gearboxOilCondition < 30) ∧
      -(1/50) ≤ (mockPrediction recScore06 tsNominal noiseHalf).shapValues.generatorPower ∧
      (mockPrediction recScore06 tsNominal noiseHalf).shapValues.generatorPower ≤ 1/50 ∧
      -(1/50) ≤ (mockPrediction recScore06 tsNominal noiseHalf).shapValues.frequency ∧
      (mockPrediction recScore06 tsNominal noiseHalf).shapValues.frequency ≤ 1/50) :=
  ⟨by norm_num [noiseHalf],
    shap_signs recScore06 tsNominal noiseHalf (by norm_num [noiseHalf]) (by norm_num [noiseHalf])
      (by norm_num [noiseHalf]) (by norm_num [noiseHalf])⟩

/-- C9 counterexample: calling start while the loop is already Running is
not a no-op: a second interval timer is scheduled (`active` grows from
[0] to [1, 0]) and the stored interval id is overwritten, so the existing
schedule is not preserved. -/
theorem start_not_idempotent :
    startRealTimeMode 1 (startRealTimeMode 0 idleState) ≠ startRealTimeMode 0 idleState ∧
    (startRealTimeMode 0 idleState).isRealTimeMode = true ∧
    (startRealTimeMode 0 idleState).active = [0] ∧
    (startRealTimeMode 1 (startRealTimeMode 0 idleState)).active = [1, 0] ∧
    (startRealTimeMode 1 (startRealTimeMode 0 idleState)).intervalId = some 1 := by
  refine ⟨?_, rfl, rfl, rfl, rfl⟩
  decide

/-- C9 (amended): calling stop while Idle (flag down, no stored interval)
leaves the state exactly unchanged, but start is unguarded: from any
state it schedules an additional interval timer and overwrites the stored
interval id, so calling it while Running creates a second concurrent
cycle instead of being an idempotent no-op. -/
theorem loop_start_stop (s : LoopState) (fresh : ℕ)
    (h1 : s.isRealTimeMode = false) (h2 : s.intervalId = none) :
    stopRealTimeMode s = s ∧
    (startRealTimeMode fresh s).isRealTimeMode = true ∧
    (startRealTimeMode fresh s).intervalId = some fresh ∧
    (startRealTimeMode fresh s).active = fresh :: s.active := by
  refine ⟨?_, rfl, rfl, rfl⟩
  cases s with
  | mk i o a =>
      simp only at h1 h2
      subst h1
      subst h2
      rfl

/-- C9 witness: the amended start/stop behaviour at the Idle state. -/
theorem loop_start_stop_witness :
    idleState.isRealTimeMode = false ∧ idleState.intervalId = none ∧
      (stopRealTimeMode idleState = idleState ∧
        (startRealTimeMode 0 idleState).isRealTimeMode = true ∧
        (startRealTimeMode 0 idleState).intervalId = some 0 ∧
        (startRealTimeMode 0 idleState).active = 0 :: idleState.active) :=
  ⟨rfl, rfl, loop_start_stop idleState 0 rfl rfl⟩

/-- C10: the history store is kept newest first — append places the new
entry at the head, the store built by any append sequence is the reverse
of the retained appends, and the export table lists the data rows in
stored order, the most recently appended entry's row first. -/
theorem history_newest_first (e : PredictionHistory) (prev : List PredictionHistory)
    (es : List PredictionHistory) :
    (historyAppend e prev).head? = some e ∧
    historyAppendAll es = es.reverse.take 50 ∧
    exportTable (historyAppend e prev)
      = headerCells :: entryCells e :: (prev.take 49).map entryCells := by
  refine ⟨rfl, historyAppendAll_eq es, ?_⟩
  simp [exportTable, historyAppend]

end TurbineInsight
